import Mathlib

/-!
Shallow embedding of the authentication/session subsystem of the Vibro.X
serverless handlers: the two-step login handler (src/unnamed/part_005,
second document, lines 189-351), the logout handler (src/api/logout.js),
and the session-validation segments of the authenticated endpoints
(src/unnamed/part_000 lines 26-55; src/api/me.js second document,
lines 182-198).

Modelling conventions:
* JavaScript falsiness of optional string fields (`!email`) is captured by
  `truthy : Option String → Bool` (absent or empty string is falsy).
* Times are naturals, milliseconds since the epoch; `new Date(a) < new Date(b)`
  on stored timestamps becomes `a < b`.
* External collaborators (bcrypt, the CAPTCHA service, sha-256, uuid and
  randomness, the rate limiter decision) are supplied through an `Oracle`
  record; the handler is a pure function of the request, the store and the
  oracle.
* Every remote-store interaction of the handler is recorded, in program
  order, in an effect trace so frame conditions can be stated.
-/

/-- JavaScript truthiness for an optional string value: `undefined`, `null`
and the empty string are falsy. -/
def truthy : Option String → Bool
  | none => false
  | some s => !(s == "")

/-- JavaScript `a || b` for an optional string `a` and a string fallback. -/
def jsOrS (a : Option String) (b : String) : String :=
  match a with
  | some s => if s == "" then b else s
  | none => b

/-- JavaScript coercion used when a possibly-absent header participates in
string concatenation: an absent value prints as "undefined". -/
def hdrStr : Option String → String
  | some s => s
  | none => "undefined"

/-- A row of the `users` table, with the columns the login flow reads
(src/unnamed/part_005 lines 226-253, 337). -/
structure UserRec where
  email : String
  password : Option String
  encrypted_password : Option String
  verified : Bool
  is_honeytoken : Bool
  last_fingerprint : Option String
  deriving Repr, DecidableEq

/-- A row of the `pending_verifications` table
(src/unnamed/part_005 lines 266-319). -/
structure PendingRec where
  email : String
  fingerprint : String
  code : String
  expires_at : Nat
  deriving Repr, DecidableEq

/-- A row of the `sessions` table (src/unnamed/part_005 lines 325-330). -/
structure SessionRec where
  user_email : String
  session_token : String
  expires_at : Nat
  verified : Bool
  deriving Repr, DecidableEq

/-- The remote store: the tables touched by the login/session subsystem,
plus the rate-limit counters. The counter table is modelled from the spec:
the rate limiter is an external collaborator whose storage is not part of
the repository; per spec section 4.1 it tracks failed-attempt counts per key. -/
structure Store where
  users : List UserRec
  pending : List PendingRec
  sessions : List SessionRec
  attempts : List (String × Nat)
  deriving Repr, DecidableEq

/-- JSON response body: the optional fields that the handlers put in their
JSON responses. Absent fields are `none`. -/
structure RespBody where
  success : Option Bool := none
  error : Option String := none
  message : Option String := none
  verification_required : Option Bool := none
  redirect : Option String := none
  deriving Repr, DecidableEq

/-- An HTTP response: status code, JSON body, and the optional Set-Cookie
header value. -/
structure Response where
  status : Nat
  body : RespBody
  cookie : Option String := none
  deriving Repr, DecidableEq

/-- One externally visible effect of a handler run, recorded in program
order: remote-store reads and writes, the bcrypt comparison, the CAPTCHA
service consultation, the verification email, and the artificial delay. -/
inductive Effect where
  | rateLimitRead (key : String)
  | logAttempt (key : String)
  | userFetch (email : String)
  | bcryptCall (pw hash : String)
  | randomDelay
  | captchaCheck
  | pendingUpsert (email fp : String)
  | emailSend (email code : String)
  | pendingFetch (email fp : String)
  | pendingDelete (email fp : String)
  | sessionInsert (token : String)
  | userUpdate (email : String)
  deriving Repr, DecidableEq

/-- The external collaborators the login handler consults, plus the
per-request randomness, fixed for one handler run. `rateAllowed` is
modelled from the spec: `checkRateLimit` lives in the external rateLimit.js
module (not part of the repository); per spec section 4.1 it returns true
when the key is under threshold. `codeRand` is `Math.floor` of
`Math.random() * 900000`, hence a value in `[0, 900000)`. -/
structure Oracle where
  bcryptCompare : String → String → Bool
  captchaService : String → Bool
  sha256hex : String → String
  freshUuid : String
  codeRand : Fin 900000
  sessionToken : String
  rateAllowed : String → Bool
  now : Nat

/-- Request headers consulted by the login flow
(src/unnamed/part_005 lines 133-137, 212). -/
structure Headers where
  xForwardedFor : Option String
  clientIp : Option String
  userAgent : Option String
  acceptLanguage : Option String
  deriving Repr, DecidableEq

/-- The parsed JSON body of a login request together with the HTTP method
(src/unnamed/part_005 lines 196-206). -/
structure LoginReq where
  method : String
  email : Option String
  password : Option String
  remember_me : Bool
  captcha_token : Option String
  google : Bool
  fingerprint : Option String
  verification_code : Option String
  headers : Headers
  deriving Repr, DecidableEq

namespace Login

/-- The fixed dummy bcrypt hash compared when no user record exists
(src/unnamed/part_005 line 238). -/
def dummyHash : String := "$2b$12$C6UzMDM.H6dfI/f/IKcEeO"

/-- Client ip resolution, src/unnamed/part_005 line 212:
x-forwarded-for, else client-ip, else "unknown". -/
def clientIpOf (h : Headers) : String :=
  jsOrS h.xForwardedFor (jsOrS h.clientIp "unknown")

/-- The numeric value of a generated verification code,
src/unnamed/part_005 line 174: `Math.floor(100000 + Math.random() * 900000)`,
where `r` is the integer part of `Math.random() * 900000`. -/
def verificationCodeNat (r : Fin 900000) : Nat := 100000 + r.val

/-- generateVerificationCode, src/unnamed/part_005 lines 173-175: the
decimal string of the drawn value. -/
def generateVerificationCode (r : Fin 900000) : String :=
  toString (verificationCodeNat r)

/-- passwordStrongEnough, src/unnamed/part_005 lines 178-186: length at
least 8 and the four character-class regex tests. -/
def passwordStrongEnough (password : String) : Bool :=
  decide (8 ≤ password.length) &&
  password.data.any (fun c => c.isUpper) &&
  password.data.any (fun c => c.isLower) &&
  password.data.any (fun c => c.isDigit) &&
  password.data.any (fun c => "!@#$%^&*".data.contains c)

/-- getDeviceFingerprint, src/unnamed/part_005 lines 133-138: hash the
client-supplied fingerprint if truthy, else the concatenation of
user-agent, accept-language, x-forwarded-for and a fresh uuid. -/
def getDeviceFingerprint (o : Oracle) (h : Headers) (frontendFingerprint : Option String) : String :=
  o.sha256hex (jsOrS frontendFingerprint
    (hdrStr h.userAgent ++ hdrStr h.acceptLanguage ++ hdrStr h.xForwardedFor ++ o.freshUuid))

/-- `supabase.from('users')...eq('email', email).maybeSingle()`
(src/unnamed/part_005 lines 226-230). -/
def findUser (users : List UserRec) (email : String) : Option UserRec :=
  users.find? (fun u => u.email == email)

/-- `supabase.from('pending_verifications')...eq('email', ...).eq('fingerprint', ...)
.maybeSingle()` (src/unnamed/part_005 lines 294-299). -/
def findPending (ps : List PendingRec) (email fp : String) : Option PendingRec :=
  ps.find? (fun p => p.email == email && p.fingerprint == fp)

/-- Upsert with `onConflict: ['email', 'fingerprint']`
(src/unnamed/part_005 lines 268-278): replace the row with the same key if
present, otherwise append. -/
def upsertPending (ps : List PendingRec) (p : PendingRec) : List PendingRec :=
  if (ps.find? (fun q => q.email == p.email && q.fingerprint == p.fingerprint)).isSome then
    ps.map (fun q => if q.email == p.email && q.fingerprint == p.fingerprint then p else q)
  else
    ps ++ [p]

/-- `delete().eq('email', ...).eq('fingerprint', ...)` on
pending_verifications (src/unnamed/part_005 lines 311-315). -/
def deletePending (ps : List PendingRec) (email fp : String) : List PendingRec :=
  ps.filter (fun p => !(p.email == email && p.fingerprint == fp))

/-- Modelled from the spec: `logAttempt` of the external rateLimit.js module
(not part of the repository); per spec section 4.1 and the Rate-Limit
Counter data model it records one more failure for the key. -/
def bumpAttempts : List (String × Nat) → String → List (String × Nat)
  | [], k => [(k, 1)]
  | (k0, n) :: rest, k =>
      if k0 == k then (k0, n + 1) :: rest else (k0, n) :: bumpAttempts rest k

/-- The two-step login handler, src/unnamed/part_005 lines 189-351
(second document of the file). Returns the HTTP response, the store after
the run, and the trace of external effects in program order. -/
def handler (o : Oracle) (st : Store) (req : LoginReq) : Response × Store × List Effect :=
  if req.method != "POST" then
    ({ status := 405, body := { success := some false, error := some "Method not allowed" } }, st, [])
  else if !truthy req.email || !truthy req.password then
    ({ status := 400, body := { success := some false, error := some "Email and password are required" } }, st, [])
  else
    let email := jsOrS req.email ""
    let password := jsOrS req.password ""
    let ip := clientIpOf req.headers
    if req.google then
      ({ status := 200, body := { success := some true, redirect := some "/.netlify/functions/googleStart" } }, st, [])
    else
      let key := ip ++ email
      let tr0 := [Effect.rateLimitRead key]
      if !o.rateAllowed key then
        ({ status := 429, body := { success := some false, error := some "Too many login attempts. Try again later." } }, st, tr0)
      else
        let userOpt := findUser st.users email
        let tr1 := tr0 ++ [Effect.userFetch email]
        let userPassword :=
          match userOpt with
          | some u => jsOrS u.encrypted_password (jsOrS u.password "")
          | none => ""
        let passwordMatch :=
          match userOpt with
          | some _ => o.bcryptCompare password userPassword
          | none => o.bcryptCompare dummyHash dummyHash
        let tr2 :=
          match userOpt with
          | some _ => tr1 ++ [Effect.bcryptCall password userPassword]
          | none => tr1 ++ [Effect.bcryptCall dummyHash dummyHash]
        let badCred :=
          userOpt.isNone || !passwordMatch ||
            (match userOpt with
             | some u => !u.verified || u.is_honeytoken
             | none => false)
        if badCred then
          ({ status := 401, body := { success := some false, error := some "Invalid email or password" } },
           { st with attempts := bumpAttempts st.attempts key },
           tr2 ++ [Effect.logAttempt key, Effect.randomDelay])
        else if !passwordStrongEnough password then
          ({ status := 400, body := { success := some false, error := some "Password does not meet strength requirements" } }, st, tr2)
        else
          let fp := getDeviceFingerprint o req.headers req.fingerprint
          if !truthy req.verification_code then
            -- CAPTCHA check only on first login (no verification code supplied)
            let captchaOk :=
              if !truthy req.captcha_token then false
              else o.captchaService (jsOrS req.captcha_token "")
            let tr3 := tr2 ++ [Effect.captchaCheck]
            if !captchaOk then
              ({ status := 403, body := { success := some false, error := some "CAPTCHA verification failed" } },
               { st with attempts := bumpAttempts st.attempts key },
               tr3 ++ [Effect.logAttempt key, Effect.randomDelay])
            else
              let code := generateVerificationCode o.codeRand
              let newPending : PendingRec :=
                { email := email, fingerprint := fp, code := code, expires_at := o.now + 60 * 1000 }
              ({ status := 200,
                 body := { success := some true, verification_required := some true,
                           message := some "Verification code sent to your email. It expires in 1 minute." } },
               { st with pending := upsertPending st.pending newPending },
               tr3 ++ [Effect.pendingUpsert email fp, Effect.emailSend email code])
          else
            let vc := jsOrS req.verification_code ""
            let tr3 := tr2 ++ [Effect.pendingFetch email fp]
            match findPending st.pending email fp with
            | none =>
                ({ status := 401, body := { success := some false, error := some "Invalid or expired verification code" } }, st, tr3)
            | some pending =>
                if pending.code != vc || pending.expires_at < o.now then
                  ({ status := 401, body := { success := some false, error := some "Invalid or expired verification code" } }, st, tr3)
                else
                  let st1 := { st with pending := deletePending st.pending email fp }
                  let session_token := o.sessionToken
                  let expiresInDays : Nat := if req.remember_me then 90 else 1
                  let sess : SessionRec :=
                    { user_email := email, session_token := session_token,
                      expires_at := o.now + expiresInDays * 24 * 60 * 60 * 1000, verified := true }
                  let st2 :=
                    { st1 with
                      sessions := st1.sessions ++ [sess],
                      users := st1.users.map (fun u =>
                        if u.email == email then { u with last_fingerprint := some fp } else u) }
                  ({ status := 200,
                     body := { success := some true, message := some "Verification complete. Login successful!" },
                     cookie := some ("__Host-session_secure=" ++ session_token ++
                       "; Path=/; HttpOnly; Secure; Max-Age=" ++ toString (expiresInDays * 24 * 60 * 60) ++
                       "; SameSite=Strict") },
                   st2,
                   tr3 ++ [Effect.pendingDelete email fp, Effect.sessionInsert session_token, Effect.userUpdate email])

end Login

namespace Logout

/-- The parsed logout request: the HTTP method and the session cookie value
`cookies['__Host-session_secure']` as produced by cookie parsing of the
Cookie header (src/api/logout.js lines 10-17). -/
structure Req where
  method : String
  cookieToken : Option String
  deriving Repr, DecidableEq

/-- The Set-Cookie value clearing the session cookie, serialized in the
cookie module field order (src/api/logout.js lines 34-40); `prod` is
whether NODE_ENV is production, which gates the Secure attribute. -/
def clearCookie (prod : Bool) : String :=
  "__Host-session_secure=; Max-Age=0; Path=/; HttpOnly; " ++
    (if prod then "Secure; " else "") ++ "SameSite=Strict"

/-- The logout handler, src/api/logout.js lines 10-50. Returns the response
and the store after the run. -/
def handler (prod : Bool) (st : Store) (req : Req) : Response × Store :=
  if req.method != "POST" then
    ({ status := 405, body := { error := some "Method not allowed" } }, st)
  else if !truthy req.cookieToken then
    ({ status := 200, body := { success := some true, message := some "Already logged out" } }, st)
  else
    let tok := jsOrS req.cookieToken ""
    ({ status := 200, body := { success := some true, message := some "Logged out successfully" },
       cookie := some (clearCookie prod) },
     { st with sessions := st.sessions.filter (fun s => !(s.session_token == tok)) })

end Logout

namespace SessionCheck

/-- `supabase.from('sessions')...eq('session_token', token).maybeSingle()`. -/
def findSession (ss : List SessionRec) (tok : String) : Option SessionRec :=
  ss.find? (fun s => s.session_token == tok)

/-- The session-validation step of the like-video handler,
src/unnamed/part_000 (first document) lines 26-55: missing cookie is 401,
unknown token is 401, a token whose record has expires_at in the past is
deleted from the sessions table and rejected with 401. Returns
`(some response, store)` when the request is rejected at this step and
`(none, store)` when validation passes and the handler continues; the
continuation (lines 57 onward) does not touch the sessions table. -/
def likeVideoValidate (st : Store) (now : Nat) (cookieToken : Option String) :
    Option Response × Store :=
  if !truthy cookieToken then
    (some { status := 401, body := { success := some false, error := some "Not authenticated" } }, st)
  else
    let tok := jsOrS cookieToken ""
    match findSession st.sessions tok with
    | none =>
        (some { status := 401, body := { success := some false, error := some "Session expired or invalid" } }, st)
    | some s =>
        if s.expires_at < now then
          (some { status := 401, body := { success := some false, error := some "Session expired" } },
           { st with sessions := st.sessions.filter (fun q => !(q.session_token == tok)) })
        else
          (none, st)

/-- The session-validation step of the second me.js handler,
src/api/me.js (second document) lines 182-198: missing cookie is 401
Not authenticated; a lookup error, an unknown token and an expired record
all take the single 401 Session-expired-or-invalid branch, with no deletion
of the expired record. Returns `(some response, store)` on rejection and
`(none, store)` when the handler continues; the continuation
(lines 200-245) only reads the users/videos/comments/likes tables and never
writes or deletes sessions. -/
def meV2Validate (st : Store) (now : Nat) (cookieToken : Option String) :
    Option Response × Store :=
  if !truthy cookieToken then
    (some { status := 401, body := { error := some "Not authenticated" } }, st)
  else
    match findSession st.sessions (jsOrS cookieToken "") with
    | none =>
        (some { status := 401, body := { error := some "Session expired or invalid" } }, st)
    | some s =>
        if s.expires_at < now then
          (some { status := 401, body := { error := some "Session expired or invalid" } }, st)
        else
          (none, st)

end SessionCheck

/-!
Concrete instances used to witness the theorems below on executable inputs.
-/

/-- A concrete oracle: bcrypt accepts exactly the pair ("Secret1!", "HASH"),
the CAPTCHA service accepts exactly the token "good", hashing and token
generation are fixed strings, the rate limiter always allows, and the clock
reads 5000 ms. -/
def oW : Oracle := {
  bcryptCompare := fun pw h => pw == "Secret1!" && h == "HASH",
  captchaService := fun t => t == "good",
  sha256hex := fun s => "FP:" ++ s,
  freshUuid := "UUID",
  codeRand := ⟨123456, by decide⟩,
  sessionToken := "TOK",
  rateAllowed := fun _ => true,
  now := 5000 }

/-- A concrete registered, verified, non-honeytoken user. -/
def uW : UserRec := {
  email := "a@x.com",
  password := none,
  encrypted_password := some "HASH",
  verified := true,
  is_honeytoken := false,
  last_fingerprint := none }

/-- Concrete request headers. -/
def hW : Headers := { xForwardedFor := some "1.2.3.4", clientIp := none, userAgent := none, acceptLanguage := none }

/-- A store holding only the user `uW`. -/
def stW : Store := { users := [uW], pending := [], sessions := [], attempts := [] }

/-- A store with no users at all. -/
def stEmpty : Store := { users := [], pending := [], sessions := [], attempts := [] }

/-- A first-touch login request: correct credentials, valid CAPTCHA token,
no verification code. -/
def reqFirst : LoginReq := {
  method := "POST",
  email := some "a@x.com",
  password := some "Secret1!",
  remember_me := false,
  captcha_token := some "good",
  google := false,
  fingerprint := some "dev1",
  verification_code := none,
  headers := hW }

/-- The pending verification record issued for `reqFirst` under `oW`:
code 223456, keyed by the derived fingerprint, expiring 60 s after 5000 ms. -/
def pW : PendingRec := { email := "a@x.com", fingerprint := "FP:dev1", code := "223456", expires_at := 65000 }

/-- The store after code issuance: `stW` plus the pending record `pW`. -/
def stPend : Store := { users := [uW], pending := [pW], sessions := [], attempts := [] }

/-- The resubmission request carrying the correct emailed code. -/
def reqSecond : LoginReq := { reqFirst with verification_code := some "223456", captcha_token := none }

/-- A pending record whose expiry equals the oracle clock exactly
(expires_at = 5000 = oW.now). -/
def pBoundary : PendingRec := { email := "a@x.com", fingerprint := "FP:dev1", code := "223456", expires_at := 5000 }

/-- The store holding the boundary pending record. -/
def stBoundary : Store := { users := [uW], pending := [pBoundary], sessions := [], attempts := [] }

/-- A first-touch request (no verification code) for an email that has no
credential record in `stEmpty`. -/
def reqUnknown : LoginReq := { reqFirst with email := some "ghost@x.com", password := some "WrongPass1!" }

/-- A resubmission whose code does not match the stored pending code. -/
def reqWrongCode : LoginReq := { reqSecond with verification_code := some "000000" }

/-- A login request for the registered email with a wrong password. -/
def reqWrongPw : LoginReq := { reqFirst with password := some "WrongPass1!" }

/-- A first-touch login request carrying no CAPTCHA token. -/
def reqNoCaptcha : LoginReq := { reqFirst with captcha_token := none }

/-- The resubmission request with remember_me set. -/
def reqSecondRemember : LoginReq := { reqSecond with remember_me := true }

/-- A login request with a correct but weak password: the oracle
`oWeak` accepts the pair ("weakpass", "HASH") yet "weakpass" fails the
strength test. -/
def reqWeak : LoginReq := { reqFirst with password := some "weakpass" }

/-- Oracle variant whose bcrypt accepts the weak password "weakpass". -/
def oWeak : Oracle := { oW with bcryptCompare := fun pw h => pw == "weakpass" && h == "HASH" }

/-- A request with the password field missing altogether. -/
def reqNoPassword : LoginReq := { reqFirst with password := none }

/-- A session record with token "T" that expires at time 1000. -/
def sessT : SessionRec := { user_email := "a@x.com", session_token := "T", expires_at := 1000, verified := true }

/-- A store holding only `sessT`, already expired at time 2000. -/
def stSess : Store := { users := [], pending := [], sessions := [sessT], attempts := [] }

/-- A concrete logout request presenting the session token "T". -/
def reqLogout : Logout.Req := { method := "POST", cookieToken := some "T" }

/-!
Helper lemmas shared by the theorems below.
-/

/-- find? of a predicate on a list from which every satisfying element was
filtered out returns none. -/
theorem find?_filter_neg {α : Type} (l : List α) (p : α → Bool) :
    (l.filter (fun a => !(p a))).find? p = none := by
  rw [List.find?_eq_none]
  intro x hx
  rcases List.mem_filter.mp hx with ⟨_, hpx⟩
  simp at hpx
  simp [hpx]

/-- Deleting the pending record for a key removes it: a subsequent fetch
for the same (email, fingerprint) finds nothing. -/
theorem findPending_deletePending (ps : List PendingRec) (e f : String) :
    Login.findPending (Login.deletePending ps e f) e f = none :=
  find?_filter_neg ps (fun p => p.email == e && p.fingerprint == f)

/-- The last_fingerprint update performed on successful login leaves user
lookup results intact apart from the updated field. -/
theorem findUser_update_fp (users : List UserRec) (e : String) (fp : String) :
    Login.findUser (users.map (fun v => if v.email == e then { v with last_fingerprint := some fp } else v)) e
      = (Login.findUser users e).map (fun v => { v with last_fingerprint := some fp }) := by
  induction users with
  | nil => simp [Login.findUser]
  | cons u rest ih =>
      by_cases h : u.email == e
      · simp [Login.findUser, List.find?, h]
      · simp only [List.map_cons]
        simp [Login.findUser, List.find?, h] at ih ⊢
        exact ih

/-- Filtering sessions by a token removes every record carrying it. -/
theorem findSession_filter (ss : List SessionRec) (tok : String) :
    SessionCheck.findSession (ss.filter (fun q => !(q.session_token == tok))) tok = none :=
  find?_filter_neg ss (fun s => s.session_token == tok)

/-!
Branch equations of the two-step login handler: each lemma evaluates
`Login.handler` on the requests that reach a given branch.
-/

namespace Login

/-- A request missing email or password is rejected with 400 before any
effect occurs. -/
theorem run_missing_fields (o : Oracle) (st : Store) (req : LoginReq)
    (hm : req.method = "POST")
    (hmiss : truthy req.email = false ∨ truthy req.password = false) :
    handler o st req =
      ({ status := 400, body := { success := some false, error := some "Email and password are required" } }, st, []) := by
  rcases hmiss with h | h <;> simp [handler, hm, h]

/-- Evaluation when no credential record exists for the email. -/
theorem run_badCred_noUser (o : Oracle) (st : Store) (req : LoginReq)
    (hm : req.method = "POST") (he : truthy req.email = true) (hp : truthy req.password = true)
    (hg : req.google = false)
    (hr : o.rateAllowed (clientIpOf req.headers ++ jsOrS req.email "") = true)
    (hu : findUser st.users (jsOrS req.email "") = none) :
    handler o st req =
      ({ status := 401, body := { success := some false, error := some "Invalid email or password" } },
       { st with attempts := bumpAttempts st.attempts (clientIpOf req.headers ++ jsOrS req.email "") },
       [Effect.rateLimitRead (clientIpOf req.headers ++ jsOrS req.email ""),
        Effect.userFetch (jsOrS req.email ""),
        Effect.bcryptCall dummyHash dummyHash,
        Effect.logAttempt (clientIpOf req.headers ++ jsOrS req.email ""),
        Effect.randomDelay]) := by
  simp [handler, hm, he, hp, hg, hr, hu]

/-- Evaluation when a record exists but the password mismatches, the account
is unverified, or it is a honeytoken. -/
theorem run_badCred_user (o : Oracle) (st : Store) (req : LoginReq) (u : UserRec)
    (hm : req.method = "POST") (he : truthy req.email = true) (hp : truthy req.password = true)
    (hg : req.google = false)
    (hr : o.rateAllowed (clientIpOf req.headers ++ jsOrS req.email "") = true)
    (hu : findUser st.users (jsOrS req.email "") = some u)
    (hbad : (!(o.bcryptCompare (jsOrS req.password "") (jsOrS u.encrypted_password (jsOrS u.password ""))) ||
             !u.verified || u.is_honeytoken) = true) :
    handler o st req =
      ({ status := 401, body := { success := some false, error := some "Invalid email or password" } },
       { st with attempts := bumpAttempts st.attempts (clientIpOf req.headers ++ jsOrS req.email "") },
       [Effect.rateLimitRead (clientIpOf req.headers ++ jsOrS req.email ""),
        Effect.userFetch (jsOrS req.email ""),
        Effect.bcryptCall (jsOrS req.password "") (jsOrS u.encrypted_password (jsOrS u.password "")),
        Effect.logAttempt (clientIpOf req.headers ++ jsOrS req.email ""),
        Effect.randomDelay]) := by
  simp only [handler, hm, he, hp, hg, hr, hu]
  simp only [Bool.or_eq_true] at hbad
  rcases hbad with (h | h) | h <;> simp [h]

/-- Evaluation when the credentials are accepted but the submitted password
fails the strength test. -/
theorem run_weak (o : Oracle) (st : Store) (req : LoginReq) (u : UserRec)
    (hm : req.method = "POST") (he : truthy req.email = true) (hp : truthy req.password = true)
    (hg : req.google = false)
    (hr : o.rateAllowed (clientIpOf req.headers ++ jsOrS req.email "") = true)
    (hu : findUser st.users (jsOrS req.email "") = some u)
    (hmatch : o.bcryptCompare (jsOrS req.password "") (jsOrS u.encrypted_password (jsOrS u.password "")) = true)
    (hver : u.verified = true) (hhon : u.is_honeytoken = false)
    (hweak : passwordStrongEnough (jsOrS req.password "") = false) :
    handler o st req =
      ({ status := 400, body := { success := some false, error := some "Password does not meet strength requirements" } },
       st,
       [Effect.rateLimitRead (clientIpOf req.headers ++ jsOrS req.email ""),
        Effect.userFetch (jsOrS req.email ""),
        Effect.bcryptCall (jsOrS req.password "") (jsOrS u.encrypted_password (jsOrS u.password ""))]) := by
  simp [handler, hm, he, hp, hg, hr, hu, hmatch, hver, hhon, hweak]

/-- Evaluation of a first-touch request (no verification code) whose CAPTCHA
verification fails, in particular whenever the token is absent. -/
theorem run_captcha_fail (o : Oracle) (st : Store) (req : LoginReq) (u : UserRec)
    (hm : req.method = "POST") (he : truthy req.email = true) (hp : truthy req.password = true)
    (hg : req.google = false)
    (hr : o.rateAllowed (clientIpOf req.headers ++ jsOrS req.email "") = true)
    (hu : findUser st.users (jsOrS req.email "") = some u)
    (hmatch : o.bcryptCompare (jsOrS req.password "") (jsOrS u.encrypted_password (jsOrS u.password "")) = true)
    (hver : u.verified = true) (hhon : u.is_honeytoken = false)
    (hstrong : passwordStrongEnough (jsOrS req.password "") = true)
    (hvc : truthy req.verification_code = false)
    (hcap : (if !truthy req.captcha_token then false
             else o.captchaService (jsOrS req.captcha_token "")) = false) :
    handler o st req =
      ({ status := 403, body := { success := some false, error := some "CAPTCHA verification failed" } },
       { st with attempts := bumpAttempts st.attempts (clientIpOf req.headers ++ jsOrS req.email "") },
       [Effect.rateLimitRead (clientIpOf req.headers ++ jsOrS req.email ""),
        Effect.userFetch (jsOrS req.email ""),
        Effect.bcryptCall (jsOrS req.password "") (jsOrS u.encrypted_password (jsOrS u.password "")),
        Effect.captchaCheck,
        Effect.logAttempt (clientIpOf req.headers ++ jsOrS req.email ""),
        Effect.randomDelay]) := by
  simp [handler, hm, he, hp, hg, hr, hu, hmatch, hver, hhon, hstrong, hvc]
  intro h
  simp [h] at hcap
  exact hcap

/-- Evaluation of a first-touch request whose CAPTCHA verification succeeds:
a code is generated, upserted and emailed. -/
theorem run_issue (o : Oracle) (st : Store) (req : LoginReq) (u : UserRec)
    (hm : req.method = "POST") (he : truthy req.email = true) (hp : truthy req.password = true)
    (hg : req.google = false)
    (hr : o.rateAllowed (clientIpOf req.headers ++ jsOrS req.email "") = true)
    (hu : findUser st.users (jsOrS req.email "") = some u)
    (hmatch : o.bcryptCompare (jsOrS req.password "") (jsOrS u.encrypted_password (jsOrS u.password "")) = true)
    (hver : u.verified = true) (hhon : u.is_honeytoken = false)
    (hstrong : passwordStrongEnough (jsOrS req.password "") = true)
    (hvc : truthy req.verification_code = false)
    (hcap : (if !truthy req.captcha_token then false
             else o.captchaService (jsOrS req.captcha_token "")) = true) :
    handler o st req =
      ({ status := 200,
         body := { success := some true, verification_required := some true,
                   message := some "Verification code sent to your email. It expires in 1 minute." } },
       { st with pending := upsertPending st.pending {
           email := jsOrS req.email "",
           fingerprint := getDeviceFingerprint o req.headers req.fingerprint,
           code := generateVerificationCode o.codeRand,
           expires_at := o.now + 60 * 1000 } },
       [Effect.rateLimitRead (clientIpOf req.headers ++ jsOrS req.email ""),
        Effect.userFetch (jsOrS req.email ""),
        Effect.bcryptCall (jsOrS req.password "") (jsOrS u.encrypted_password (jsOrS u.password "")),
        Effect.captchaCheck,
        Effect.pendingUpsert (jsOrS req.email "") (getDeviceFingerprint o req.headers req.fingerprint),
        Effect.emailSend (jsOrS req.email "") (generateVerificationCode o.codeRand)]) := by
  simp only [handler, hm, he, hp, hg, hr, hu, hmatch, hver, hhon, hstrong, hvc]
  cases h : truthy req.captcha_token with
  | false => simp [h] at hcap
  | true =>
      simp [h] at hcap
      simp [handler, hm, he, hp, hg, hr, hu, hmatch, hver, hhon, hstrong, hvc, h, hcap]

end Login

namespace Login

/-- Evaluation of a resubmission (verification code present) when no
pending record exists for the (email, fingerprint) pair. -/
theorem run_verify_none (o : Oracle) (st : Store) (req : LoginReq) (u : UserRec)
    (hm : req.method = "POST") (he : truthy req.email = true) (hp : truthy req.password = true)
    (hg : req.google = false)
    (hr : o.rateAllowed (clientIpOf req.headers ++ jsOrS req.email "") = true)
    (hu : findUser st.users (jsOrS req.email "") = some u)
    (hmatch : o.bcryptCompare (jsOrS req.password "") (jsOrS u.encrypted_password (jsOrS u.password "")) = true)
    (hver : u.verified = true) (hhon : u.is_honeytoken = false)
    (hstrong : passwordStrongEnough (jsOrS req.password "") = true)
    (hvc : truthy req.verification_code = true)
    (hpend : findPending st.pending (jsOrS req.email "") (getDeviceFingerprint o req.headers req.fingerprint) = none) :
    handler o st req =
      ({ status := 401, body := { success := some false, error := some "Invalid or expired verification code" } },
       st,
       [Effect.rateLimitRead (clientIpOf req.headers ++ jsOrS req.email ""),
        Effect.userFetch (jsOrS req.email ""),
        Effect.bcryptCall (jsOrS req.password "") (jsOrS u.encrypted_password (jsOrS u.password "")),
        Effect.pendingFetch (jsOrS req.email "") (getDeviceFingerprint o req.headers req.fingerprint)]) := by
  simp [handler, hm, he, hp, hg, hr, hu, hmatch, hver, hhon, hstrong, hvc, hpend]

/-- Evaluation of a resubmission whose pending record exists but whose code
mismatches or is past its expiry: rejected with the store untouched. -/
theorem run_verify_reject (o : Oracle) (st : Store) (req : LoginReq) (u : UserRec) (pending : PendingRec)
    (hm : req.method = "POST") (he : truthy req.email = true) (hp : truthy req.password = true)
    (hg : req.google = false)
    (hr : o.rateAllowed (clientIpOf req.headers ++ jsOrS req.email "") = true)
    (hu : findUser st.users (jsOrS req.email "") = some u)
    (hmatch : o.bcryptCompare (jsOrS req.password "") (jsOrS u.encrypted_password (jsOrS u.password "")) = true)
    (hver : u.verified = true) (hhon : u.is_honeytoken = false)
    (hstrong : passwordStrongEnough (jsOrS req.password "") = true)
    (hvc : truthy req.verification_code = true)
    (hpend : findPending st.pending (jsOrS req.email "") (getDeviceFingerprint o req.headers req.fingerprint) = some pending)
    (hbad : (pending.code != jsOrS req.verification_code "" || decide (pending.expires_at < o.now)) = true) :
    handler o st req =
      ({ status := 401, body := { success := some false, error := some "Invalid or expired verification code" } },
       st,
       [Effect.rateLimitRead (clientIpOf req.headers ++ jsOrS req.email ""),
        Effect.userFetch (jsOrS req.email ""),
        Effect.bcryptCall (jsOrS req.password "") (jsOrS u.encrypted_password (jsOrS u.password "")),
        Effect.pendingFetch (jsOrS req.email "") (getDeviceFingerprint o req.headers req.fingerprint)]) := by
  simp only [handler, hm, he, hp, hg, hr, hu, hmatch, hver, hhon, hstrong, hvc, hpend]
  simp only [Bool.or_eq_true] at hbad
  rcases hbad with h | h <;> simp [handler, hm, he, hp, hg, hr, hu, hmatch, hver, hhon, hstrong, hvc, hpend, h]

/-- Evaluation of a resubmission whose pending record matches the submitted
code and is not yet past expiry: the record is consumed, a session is
inserted, the fingerprint is stored, and the cookie is set. -/
theorem run_verify_accept (o : Oracle) (st : Store) (req : LoginReq) (u : UserRec) (pending : PendingRec)
    (hm : req.method = "POST") (he : truthy req.email = true) (hp : truthy req.password = true)
    (hg : req.google = false)
    (hr : o.rateAllowed (clientIpOf req.headers ++ jsOrS req.email "") = true)
    (hu : findUser st.users (jsOrS req.email "") = some u)
    (hmatch : o.bcryptCompare (jsOrS req.password "") (jsOrS u.encrypted_password (jsOrS u.password "")) = true)
    (hver : u.verified = true) (hhon : u.is_honeytoken = false)
    (hstrong : passwordStrongEnough (jsOrS req.password "") = true)
    (hvc : truthy req.verification_code = true)
    (hpend : findPending st.pending (jsOrS req.email "") (getDeviceFingerprint o req.headers req.fingerprint) = some pending)
    (hcode : pending.code = jsOrS req.verification_code "")
    (hfresh : ¬ pending.expires_at < o.now) :
    handler o st req =
      ({ status := 200,
         body := { success := some true, message := some "Verification complete. Login successful!" },
         cookie := some ("__Host-session_secure=" ++ o.sessionToken ++
           "; Path=/; HttpOnly; Secure; Max-Age=" ++ toString ((if req.remember_me then 90 else 1) * 24 * 60 * 60) ++
           "; SameSite=Strict") },
       { st with
         pending := deletePending st.pending (jsOrS req.email "") (getDeviceFingerprint o req.headers req.fingerprint),
         sessions := st.sessions ++ [{
           user_email := jsOrS req.email "",
           session_token := o.sessionToken,
           expires_at := o.now + (if req.remember_me then 90 else 1) * 24 * 60 * 60 * 1000,
           verified := true }],
         users := st.users.map (fun v =>
           if v.email == jsOrS req.email "" then { v with last_fingerprint := some (getDeviceFingerprint o req.headers req.fingerprint) } else v) },
       [Effect.rateLimitRead (clientIpOf req.headers ++ jsOrS req.email ""),
        Effect.userFetch (jsOrS req.email ""),
        Effect.bcryptCall (jsOrS req.password "") (jsOrS u.encrypted_password (jsOrS u.password "")),
        Effect.pendingFetch (jsOrS req.email "") (getDeviceFingerprint o req.headers req.fingerprint),
        Effect.pendingDelete (jsOrS req.email "") (getDeviceFingerprint o req.headers req.fingerprint),
        Effect.sessionInsert o.sessionToken,
        Effect.userUpdate (jsOrS req.email "")]) := by
  simp [handler, hm, he, hp, hg, hr, hu, hmatch, hver, hhon, hstrong, hvc, hpend, hcode, hfresh]

end Login

/-!
Claim theorems.
-/

/-- C8: for every login request missing the email field or the password
field (absent or empty, which JavaScript treats as falsy), the two-step
login handler responds 400 and performs no access to the remote store: the
store is returned unchanged and the effect trace is empty, so there is no
rate-limiter read, no credential fetch and no write. -/
theorem login_missing_fields_no_store_access (o : Oracle) (st : Store) (req : LoginReq)
    (hm : req.method = "POST")
    (hmiss : truthy req.email = false ∨ truthy req.password = false) :
    (Login.handler o st req).1 =
      { status := 400, body := { success := some false, error := some "Email and password are required" } } ∧
    (Login.handler o st req).2.1 = st ∧
    (Login.handler o st req).2.2 = [] := by
  rw [Login.run_missing_fields o st req hm hmiss]
  exact ⟨rfl, rfl, rfl⟩

/-- C8 witness: a concrete request with no password field is rejected with
400, leaving the store untouched and producing no effects. -/
theorem login_missing_fields_no_store_access_witness :
    (Login.handler oW stW reqNoPassword).1 =
      { status := 400, body := { success := some false, error := some "Email and password are required" } } ∧
    (Login.handler oW stW reqNoPassword).2.1 = stW ∧
    (Login.handler oW stW reqNoPassword).2.2 = [] :=
  login_missing_fields_no_store_access oW stW reqNoPassword (by decide) (Or.inr (by decide))

/-- C1: a login request whose email has no credential record receives
exactly the same response, status 401 and body success false with error
"Invalid email or password", as a request with a wrong password on an
existing account, and in the no-record case the handler still performs a
bcrypt comparison against the fixed dummy hash. -/
theorem login_unknown_email_indistinguishable
    (o₁ o₂ : Oracle) (st₁ st₂ : Store) (req₁ req₂ : LoginReq) (u : UserRec)
    (hm₁ : req₁.method = "POST") (he₁ : truthy req₁.email = true) (hp₁ : truthy req₁.password = true)
    (hg₁ : req₁.google = false)
    (hr₁ : o₁.rateAllowed (Login.clientIpOf req₁.headers ++ jsOrS req₁.email "") = true)
    (hu₁ : Login.findUser st₁.users (jsOrS req₁.email "") = none)
    (hm₂ : req₂.method = "POST") (he₂ : truthy req₂.email = true) (hp₂ : truthy req₂.password = true)
    (hg₂ : req₂.google = false)
    (hr₂ : o₂.rateAllowed (Login.clientIpOf req₂.headers ++ jsOrS req₂.email "") = true)
    (hu₂ : Login.findUser st₂.users (jsOrS req₂.email "") = some u)
    (hmm : o₂.bcryptCompare (jsOrS req₂.password "") (jsOrS u.encrypted_password (jsOrS u.password "")) = false) :
    (Login.handler o₁ st₁ req₁).1 = (Login.handler o₂ st₂ req₂).1 ∧
    (Login.handler o₁ st₁ req₁).1.status = 401 ∧
    (Login.handler o₁ st₁ req₁).1.body =
      { success := some false, error := some "Invalid email or password" } ∧
    Effect.bcryptCall Login.dummyHash Login.dummyHash ∈ (Login.handler o₁ st₁ req₁).2.2 := by
  rw [Login.run_badCred_noUser o₁ st₁ req₁ hm₁ he₁ hp₁ hg₁ hr₁ hu₁,
      Login.run_badCred_user o₂ st₂ req₂ u hm₂ he₂ hp₂ hg₂ hr₂ hu₂ (by simp [hmm])]
  simp

/-- C1 witness: a login for the unregistered email ghost@x.com produces
the same response as a wrong password for the registered a@x.com, and the
dummy-hash comparison appears in the trace of the unknown-email run. -/
theorem login_unknown_email_indistinguishable_witness :
    (Login.handler oW stW reqUnknown).1 = (Login.handler oW stW reqWrongPw).1 ∧
    (Login.handler oW stW reqUnknown).1.status = 401 ∧
    (Login.handler oW stW reqUnknown).1.body =
      { success := some false, error := some "Invalid email or password" } ∧
    Effect.bcryptCall Login.dummyHash Login.dummyHash ∈ (Login.handler oW stW reqUnknown).2.2 :=
  login_unknown_email_indistinguishable oW oW stW stW reqUnknown reqWrongPw uW
    (by decide) (by decide) (by decide) (by decide) (by decide) (by decide)
    (by decide) (by decide) (by decide) (by decide) (by decide) (by decide) (by decide)

/-- C9: once the submitted password has matched the stored hash and the
account is verified and not a honeytoken, a password that is shorter than
8 characters or lacks an uppercase letter, a lowercase letter, a digit, or
one of the characters of "!@#$%^&*" is still rejected with 400 "Password
does not meet strength requirements"; the store is unchanged and neither a
code upsert nor a session insert ever occurs, so such an account can reach
neither code issuance nor session establishment. -/
theorem login_weak_password_rejected (o : Oracle) (st : Store) (req : LoginReq) (u : UserRec)
    (hm : req.method = "POST") (he : truthy req.email = true) (hp : truthy req.password = true)
    (hg : req.google = false)
    (hr : o.rateAllowed (Login.clientIpOf req.headers ++ jsOrS req.email "") = true)
    (hu : Login.findUser st.users (jsOrS req.email "") = some u)
    (hmatch : o.bcryptCompare (jsOrS req.password "") (jsOrS u.encrypted_password (jsOrS u.password "")) = true)
    (hver : u.verified = true) (hhon : u.is_honeytoken = false)
    (hweak : (jsOrS req.password "").length < 8 ∨
             (∀ c ∈ (jsOrS req.password "").data, c.isUpper = false) ∨
             (∀ c ∈ (jsOrS req.password "").data, c.isLower = false) ∨
             (∀ c ∈ (jsOrS req.password "").data, c.isDigit = false) ∨
             (∀ c ∈ (jsOrS req.password "").data, ("!@#$%^&*".data.contains c) = false)) :
    (Login.handler o st req).1 =
      { status := 400, body := { success := some false, error := some "Password does not meet strength requirements" } } ∧
    (Login.handler o st req).2.1 = st ∧
    (∀ e fp, Effect.pendingUpsert e fp ∉ (Login.handler o st req).2.2) ∧
    (∀ tok, Effect.sessionInsert tok ∉ (Login.handler o st req).2.2) := by
  have hsw : Login.passwordStrongEnough (jsOrS req.password "") = false := by
    rcases hweak with h | h | h | h | h
    · have hd : decide (8 ≤ (jsOrS req.password "").length) = false := decide_eq_false (by omega)
      simp only [Login.passwordStrongEnough, hd, Bool.false_and]
    · have hn : ((jsOrS req.password "").data.any (fun c => c.isUpper)) = false :=
        List.any_eq_false.mpr (by intro c hc; rw [h c hc]; simp)
      simp only [Login.passwordStrongEnough, hn, Bool.false_and, Bool.and_false]
    · have hn : ((jsOrS req.password "").data.any (fun c => c.isLower)) = false :=
        List.any_eq_false.mpr (by intro c hc; rw [h c hc]; simp)
      simp only [Login.passwordStrongEnough, hn, Bool.false_and, Bool.and_false]
    · have hn : ((jsOrS req.password "").data.any (fun c => c.isDigit)) = false :=
        List.any_eq_false.mpr (by intro c hc; rw [h c hc]; simp)
      simp only [Login.passwordStrongEnough, hn, Bool.false_and, Bool.and_false]
    · have hn : ((jsOrS req.password "").data.any (fun c => "!@#$%^&*".data.contains c)) = false :=
        List.any_eq_false.mpr (by intro c hc; rw [h c hc]; simp)
      simp only [Login.passwordStrongEnough, hn, Bool.false_and, Bool.and_false]
  rw [Login.run_weak o st req u hm he hp hg hr hu hmatch hver hhon hsw]
  simp

/-- C9 witness: the account accepts the weak password "weakpass" (it has no
uppercase letter), and the handler rejects with the strength error while
leaving the store untouched. -/
theorem login_weak_password_rejected_witness :
    (Login.handler oWeak stW reqWeak).1 =
      { status := 400, body := { success := some false, error := some "Password does not meet strength requirements" } } ∧
    (Login.handler oWeak stW reqWeak).2.1 = stW ∧
    (∀ e fp, Effect.pendingUpsert e fp ∉ (Login.handler oWeak stW reqWeak).2.2) ∧
    (∀ tok, Effect.sessionInsert tok ∉ (Login.handler oWeak stW reqWeak).2.2) :=
  login_weak_password_rejected oWeak stW reqWeak uW
    (by decide) (by decide) (by decide) (by decide) (by decide) (by decide)
    (by decide) (by decide) (by decide) (Or.inr (Or.inl (by decide)))

/-- C2 (amended): under the two-step flow with a verification code
supplied and all prior checks passing, submission succeeds (status 200)
if and only if a pending record exists for the (email, fingerprint) pair,
the submitted code equals the stored code exactly, and the current time
is not past the record expiry (now less than or equal to expires_at; the
source test is a strict `expires_at < now` comparison, so submission at
exactly expires_at still succeeds). On failure the store, and with it the
pending record, is left unchanged; on success the pending record is
deleted, so resubmitting the same correct code is rejected with 401. -/
theorem login_code_verify_once (o : Oracle) (st : Store) (req : LoginReq) (u : UserRec)
    (hm : req.method = "POST") (he : truthy req.email = true) (hp : truthy req.password = true)
    (hg : req.google = false)
    (hr : o.rateAllowed (Login.clientIpOf req.headers ++ jsOrS req.email "") = true)
    (hu : Login.findUser st.users (jsOrS req.email "") = some u)
    (hmatch : o.bcryptCompare (jsOrS req.password "") (jsOrS u.encrypted_password (jsOrS u.password "")) = true)
    (hver : u.verified = true) (hhon : u.is_honeytoken = false)
    (hstrong : Login.passwordStrongEnough (jsOrS req.password "") = true)
    (hvc : truthy req.verification_code = true) :
    ((Login.handler o st req).1.status = 200 ↔
      ∃ p, Login.findPending st.pending (jsOrS req.email "") (Login.getDeviceFingerprint o req.headers req.fingerprint) = some p ∧
        p.code = jsOrS req.verification_code "" ∧ o.now ≤ p.expires_at) ∧
    ((Login.handler o st req).1.status ≠ 200 →
      (Login.handler o st req).1 =
        { status := 401, body := { success := some false, error := some "Invalid or expired verification code" } } ∧
      (Login.handler o st req).2.1 = st) ∧
    ((Login.handler o st req).1.status = 200 →
      Login.findPending (Login.handler o st req).2.1.pending (jsOrS req.email "") (Login.getDeviceFingerprint o req.headers req.fingerprint) = none ∧
      (Login.handler o (Login.handler o st req).2.1 req).1 =
        { status := 401, body := { success := some false, error := some "Invalid or expired verification code" } }) := by
  cases hfp : Login.findPending st.pending (jsOrS req.email "") (Login.getDeviceFingerprint o req.headers req.fingerprint) with
  | none =>
      rw [Login.run_verify_none o st req u hm he hp hg hr hu hmatch hver hhon hstrong hvc hfp]
      refine ⟨by simp [hfp], fun _ => ⟨rfl, rfl⟩, by simp⟩
  | some p =>
      by_cases hc : p.code = jsOrS req.verification_code ""
      · by_cases hex : p.expires_at < o.now
        · rw [Login.run_verify_reject o st req u p hm he hp hg hr hu hmatch hver hhon hstrong hvc hfp (by simp [hex])]
          refine ⟨?_, fun _ => ⟨rfl, rfl⟩, by simp⟩
          constructor
          · intro habs; simp at habs
          · rintro ⟨q, hq, _, hle⟩
            cases hq
            omega
        · rw [Login.run_verify_accept o st req u p hm he hp hg hr hu hmatch hver hhon hstrong hvc hfp hc hex]
          refine ⟨?_, ?_, ?_⟩
          · exact ⟨fun _ => ⟨p, rfl, hc, Nat.le_of_not_lt hex⟩, fun _ => rfl⟩
          · intro hne; exact absurd rfl hne
          · intro _
            constructor
            · exact findPending_deletePending st.pending (jsOrS req.email "") (Login.getDeviceFingerprint o req.headers req.fingerprint)
            · have hu2 : Login.findUser
                  (st.users.map (fun v =>
                    if v.email == jsOrS req.email "" then { v with last_fingerprint := some (Login.getDeviceFingerprint o req.headers req.fingerprint) } else v))
                  (jsOrS req.email "")
                  = some { u with last_fingerprint := some (Login.getDeviceFingerprint o req.headers req.fingerprint) } := by
                rw [findUser_update_fp, hu]
                rfl
              have hpend2 : Login.findPending
                  (Login.deletePending st.pending (jsOrS req.email "") (Login.getDeviceFingerprint o req.headers req.fingerprint))
                  (jsOrS req.email "") (Login.getDeviceFingerprint o req.headers req.fingerprint) = none :=
                findPending_deletePending st.pending (jsOrS req.email "") (Login.getDeviceFingerprint o req.headers req.fingerprint)
              rw [Login.run_verify_none o _ req
                    { u with last_fingerprint := some (Login.getDeviceFingerprint o req.headers req.fingerprint) }
                    hm he hp hg hr hu2 hmatch hver hhon hstrong hvc hpend2]
      · rw [Login.run_verify_reject o st req u p hm he hp hg hr hu hmatch hver hhon hstrong hvc hfp
              (by simp [bne_iff_ne, hc])]
        refine ⟨?_, fun _ => ⟨rfl, rfl⟩, by simp⟩
        constructor
        · intro habs; simp at habs
        · rintro ⟨q, hq, hqc, _⟩
          cases hq
          exact absurd hqc hc

/-- C2 counterexample: the claim says a submitted code succeeds only if the
current time is strictly before the record expiry; here the clock equals
the expiry exactly (5000 = 5000), so the current time is not before
expires_at, yet the handler accepts the code and logs the user in. -/
theorem login_code_boundary_counterexample :
    oW.now = 5000 ∧
    pBoundary.expires_at = 5000 ∧
    ¬ oW.now < pBoundary.expires_at ∧
    stBoundary.pending = [pBoundary] ∧
    pBoundary.code = jsOrS reqSecond.verification_code "" ∧
    (Login.handler oW stBoundary reqSecond).1.status = 200 ∧
    (Login.handler oW stBoundary reqSecond).1.body.success = some true := by
  refine ⟨rfl, rfl, by decide, rfl, by decide, by decide, by decide⟩

/-- C2 witness: with the pending record of `stPend` matching the submitted
code and 5000 less than or equal to 65000, the first submission succeeds
and the immediate resubmission of the same correct code is rejected 401. -/
theorem login_code_verify_once_witness :
    (Login.handler oW stPend reqSecond).1.status = 200 ∧
    Login.findPending (Login.handler oW stPend reqSecond).2.1.pending "a@x.com" "FP:dev1" = none ∧
    (Login.handler oW (Login.handler oW stPend reqSecond).2.1 reqSecond).1 =
      { status := 401, body := { success := some false, error := some "Invalid or expired verification code" } } := by
  have h := login_code_verify_once oW stPend reqSecond uW
    (by decide) (by decide) (by decide) (by decide) (by decide) (by decide)
    (by decide) (by decide) (by decide) (by decide) (by decide)
  have h200 : (Login.handler oW stPend reqSecond).1.status = 200 :=
    h.1.mpr ⟨pW, by decide, by decide, by decide⟩
  have h3 := h.2.2 h200
  exact ⟨h200, h3.1, h3.2⟩

/-- C3 (amended): for every login request that reaches the CAPTCHA stage
(method, field, google, rate-limit, credential, account-status and
password-strength checks all passed), the CAPTCHA check is consulted if
and only if no verification code is supplied, and with no code supplied a
missing CAPTCHA token yields the 403 CAPTCHA-failure rejection rather
than an internal error. A request rejected at an earlier stage never
reaches the CAPTCHA check even when no verification code is supplied
(see the counterexample to the unconditioned claim). -/
theorem login_captcha_iff_first_touch (o : Oracle) (st : Store) (req : LoginReq) (u : UserRec)
    (hm : req.method = "POST") (he : truthy req.email = true) (hp : truthy req.password = true)
    (hg : req.google = false)
    (hr : o.rateAllowed (Login.clientIpOf req.headers ++ jsOrS req.email "") = true)
    (hu : Login.findUser st.users (jsOrS req.email "") = some u)
    (hmatch : o.bcryptCompare (jsOrS req.password "") (jsOrS u.encrypted_password (jsOrS u.password "")) = true)
    (hver : u.verified = true) (hhon : u.is_honeytoken = false)
    (hstrong : Login.passwordStrongEnough (jsOrS req.password "") = true) :
    (Effect.captchaCheck ∈ (Login.handler o st req).2.2 ↔ truthy req.verification_code = false) ∧
    (truthy req.verification_code = false → truthy req.captcha_token = false →
      (Login.handler o st req).1 =
        { status := 403, body := { success := some false, error := some "CAPTCHA verification failed" } }) := by
  cases hvc : truthy req.verification_code with
  | false =>
      cases hcap : (if !truthy req.captcha_token then false
                    else o.captchaService (jsOrS req.captcha_token "")) with
      | false =>
          rw [Login.run_captcha_fail o st req u hm he hp hg hr hu hmatch hver hhon hstrong hvc hcap]
          exact ⟨by simp, fun _ _ => rfl⟩
      | true =>
          rw [Login.run_issue o st req u hm he hp hg hr hu hmatch hver hhon hstrong hvc hcap]
          refine ⟨by simp, ?_⟩
          intro _ htok
          simp [htok] at hcap
  | true =>
      cases hfp : Login.findPending st.pending (jsOrS req.email "") (Login.getDeviceFingerprint o req.headers req.fingerprint) with
      | none =>
          rw [Login.run_verify_none o st req u hm he hp hg hr hu hmatch hver hhon hstrong hvc hfp]
          exact ⟨by simp, by simp [hvc]⟩
      | some p =>
          by_cases hc : p.code = jsOrS req.verification_code ""
          · by_cases hex : p.expires_at < o.now
            · rw [Login.run_verify_reject o st req u p hm he hp hg hr hu hmatch hver hhon hstrong hvc hfp (by simp [hex])]
              exact ⟨by simp, by simp [hvc]⟩
            · rw [Login.run_verify_accept o st req u p hm he hp hg hr hu hmatch hver hhon hstrong hvc hfp hc hex]
              exact ⟨by simp, by simp [hvc]⟩
          · rw [Login.run_verify_reject o st req u p hm he hp hg hr hu hmatch hver hhon hstrong hvc hfp
                  (by simp [bne_iff_ne, hc])]
            exact ⟨by simp, by simp [hvc]⟩

/-- C3 counterexample: the claim as stated quantifies over every login
request; this request supplies no verification code, yet because its email
is unregistered the handler rejects it before ever consulting the CAPTCHA
check, so "CAPTCHA is checked iff no verification code is supplied" fails
as an unconditional biconditional. -/
theorem login_captcha_skip_counterexample :
    truthy reqUnknown.verification_code = false ∧
    (Login.handler oW stW reqUnknown).1.status = 401 ∧
    Effect.captchaCheck ∉ (Login.handler oW stW reqUnknown).2.2 := by
  refine ⟨by decide, by decide, by decide⟩

/-- C3 witness: a first-touch request with the CAPTCHA token removed is
rejected 403, and the CAPTCHA check appears in its trace. -/
theorem login_captcha_iff_first_touch_witness :
    (Effect.captchaCheck ∈ (Login.handler oW stW reqNoCaptcha).2.2 ↔ truthy reqNoCaptcha.verification_code = false) ∧
    (Login.handler oW stW reqNoCaptcha).1 =
      { status := 403, body := { success := some false, error := some "CAPTCHA verification failed" } } := by
  have h := login_captcha_iff_first_touch oW stW reqNoCaptcha uW
    (by decide) (by decide) (by decide) (by decide) (by decide) (by decide)
    (by decide) (by decide) (by decide) (by decide)
  exact ⟨h.1, h.2 (by decide) (by decide)⟩

/-- C6 (amended): in the two-step login flow, CAPTCHA rejection, unknown
email, password mismatch, and unverified or honeytoken accounts each
record a failure (logAttempt on the client+email key) before rejecting;
but a verification-code mismatch or expiry rejects with 401 and does NOT
record a failure: no logAttempt effect occurs and the rate-limit counters
are unchanged, contrary to the unqualified claim (see counterexample). -/
theorem login_failure_logging (o : Oracle) (st : Store) (req : LoginReq)
    (hm : req.method = "POST") (he : truthy req.email = true) (hp : truthy req.password = true)
    (hg : req.google = false)
    (hr : o.rateAllowed (Login.clientIpOf req.headers ++ jsOrS req.email "") = true) :
    (Login.findUser st.users (jsOrS req.email "") = none →
      Effect.logAttempt (Login.clientIpOf req.headers ++ jsOrS req.email "") ∈ (Login.handler o st req).2.2 ∧
      (Login.handler o st req).1.status = 401) ∧
    (∀ u, Login.findUser st.users (jsOrS req.email "") = some u →
      (!(o.bcryptCompare (jsOrS req.password "") (jsOrS u.encrypted_password (jsOrS u.password ""))) ||
        !u.verified || u.is_honeytoken) = true →
      Effect.logAttempt (Login.clientIpOf req.headers ++ jsOrS req.email "") ∈ (Login.handler o st req).2.2 ∧
      (Login.handler o st req).1.status = 401) ∧
    (∀ u, Login.findUser st.users (jsOrS req.email "") = some u →
      o.bcryptCompare (jsOrS req.password "") (jsOrS u.encrypted_password (jsOrS u.password "")) = true →
      u.verified = true → u.is_honeytoken = false →
      Login.passwordStrongEnough (jsOrS req.password "") = true →
      truthy req.verification_code = false →
      (if !truthy req.captcha_token then false
       else o.captchaService (jsOrS req.captcha_token "")) = false →
      Effect.logAttempt (Login.clientIpOf req.headers ++ jsOrS req.email "") ∈ (Login.handler o st req).2.2 ∧
      (Login.handler o st req).1.status = 403) ∧
    (∀ u, Login.findUser st.users (jsOrS req.email "") = some u →
      o.bcryptCompare (jsOrS req.password "") (jsOrS u.encrypted_password (jsOrS u.password "")) = true →
      u.verified = true → u.is_honeytoken = false →
      Login.passwordStrongEnough (jsOrS req.password "") = true →
      truthy req.verification_code = true →
      (∀ p, Login.findPending st.pending (jsOrS req.email "") (Login.getDeviceFingerprint o req.headers req.fingerprint) = some p →
        ¬ p.code = jsOrS req.verification_code "" ∨ p.expires_at < o.now) →
      (∀ k, Effect.logAttempt k ∉ (Login.handler o st req).2.2) ∧
      (Login.handler o st req).1.status = 401 ∧
      (Login.handler o st req).2.1.attempts = st.attempts) := by
  refine ⟨?_, ?_, ?_, ?_⟩
  · intro hu
    rw [Login.run_badCred_noUser o st req hm he hp hg hr hu]
    exact ⟨by simp, rfl⟩
  · intro u hu hbad
    rw [Login.run_badCred_user o st req u hm he hp hg hr hu hbad]
    exact ⟨by simp, rfl⟩
  · intro u hu hmatch hver hhon hstrong hvc hcap
    rw [Login.run_captcha_fail o st req u hm he hp hg hr hu hmatch hver hhon hstrong hvc hcap]
    exact ⟨by simp, rfl⟩
  · intro u hu hmatch hver hhon hstrong hvc hrej
    cases hfp : Login.findPending st.pending (jsOrS req.email "") (Login.getDeviceFingerprint o req.headers req.fingerprint) with
    | none =>
        rw [Login.run_verify_none o st req u hm he hp hg hr hu hmatch hver hhon hstrong hvc hfp]
        exact ⟨by simp, rfl, rfl⟩
    | some p =>
        have hb : (p.code != jsOrS req.verification_code "" || decide (p.expires_at < o.now)) = true := by
          rcases hrej p hfp with h | h
          · simp [bne_iff_ne, h]
          · simp [h]
        rw [Login.run_verify_reject o st req u p hm he hp hg hr hu hmatch hver hhon hstrong hvc hfp hb]
        exact ⟨by simp, rfl, rfl⟩

/-- C6 counterexample: submitting a wrong verification code is a failed
verification step, yet the handler rejects 401 with a trace containing no
logAttempt effect and leaves the rate-limit counters untouched, refuting
the claim that every failed verification step records a failure. -/
theorem login_code_mismatch_no_log_counterexample :
    (Login.handler oW stPend reqWrongCode).1.status = 401 ∧
    (Login.handler oW stPend reqWrongCode).1.body.error = some "Invalid or expired verification code" ∧
    (Login.handler oW stPend reqWrongCode).2.2 =
      [Effect.rateLimitRead "1.2.3.4a@x.com", Effect.userFetch "a@x.com",
       Effect.bcryptCall "Secret1!" "HASH", Effect.pendingFetch "a@x.com" "FP:dev1"] ∧
    (Login.handler oW stPend reqWrongCode).2.1.attempts = stPend.attempts := by
  refine ⟨by decide, by decide, by decide, by decide⟩

/-- C6 witness: a wrong password on the registered account logs a failure
and is rejected 401, while the wrong-code resubmission of the same account
is rejected 401 with no failure logged. -/
theorem login_failure_logging_witness :
    (Effect.logAttempt "1.2.3.4a@x.com" ∈ (Login.handler oW stW reqWrongPw).2.2 ∧
      (Login.handler oW stW reqWrongPw).1.status = 401) ∧
    ((∀ k, Effect.logAttempt k ∉ (Login.handler oW stPend reqWrongCode).2.2) ∧
      (Login.handler oW stPend reqWrongCode).1.status = 401 ∧
      (Login.handler oW stPend reqWrongCode).2.1.attempts = stPend.attempts) := by
  have h1 := login_failure_logging oW stW reqWrongPw (by decide) (by decide) (by decide) (by decide) (by decide)
  have h2 := login_failure_logging oW stPend reqWrongCode (by decide) (by decide) (by decide) (by decide) (by decide)
  exact ⟨h1.2.1 uW (by decide) (by decide),
         h2.2.2.2 uW (by decide) (by decide) (by decide) (by decide) (by decide) (by decide)
           (by intro p hp; left; cases (by decide : Login.findPending stPend.pending "a@x.com" "FP:dev1" = some pW) ▸ hp; decide)⟩

/-- C7: on every successful login (accepted verification code), the
Set-Cookie header is exactly the __Host-session_secure cookie with
Path=/, HttpOnly, Secure, SameSite=Strict and Max-Age of 90 days in
seconds when remember_me is true and 1 day in seconds otherwise, and the
inserted Session Record expires after the same duration (the same number
of seconds, converted to milliseconds on the clock). -/
theorem login_success_cookie (o : Oracle) (st : Store) (req : LoginReq) (u : UserRec) (p : PendingRec)
    (hm : req.method = "POST") (he : truthy req.email = true) (hp : truthy req.password = true)
    (hg : req.google = false)
    (hr : o.rateAllowed (Login.clientIpOf req.headers ++ jsOrS req.email "") = true)
    (hu : Login.findUser st.users (jsOrS req.email "") = some u)
    (hmatch : o.bcryptCompare (jsOrS req.password "") (jsOrS u.encrypted_password (jsOrS u.password "")) = true)
    (hver : u.verified = true) (hhon : u.is_honeytoken = false)
    (hstrong : Login.passwordStrongEnough (jsOrS req.password "") = true)
    (hvc : truthy req.verification_code = true)
    (hpend : Login.findPending st.pending (jsOrS req.email "") (Login.getDeviceFingerprint o req.headers req.fingerprint) = some p)
    (hcode : p.code = jsOrS req.verification_code "")
    (hfresh : ¬ p.expires_at < o.now) :
    (Login.handler o st req).1.status = 200 ∧
    (Login.handler o st req).1.cookie =
      some ("__Host-session_secure=" ++ o.sessionToken ++
        "; Path=/; HttpOnly; Secure; Max-Age=" ++
        toString (if req.remember_me then 90 * 24 * 60 * 60 else 24 * 60 * 60) ++
        "; SameSite=Strict") ∧
    (Login.handler o st req).2.1.sessions = st.sessions ++ [{
      user_email := jsOrS req.email "",
      session_token := o.sessionToken,
      expires_at := o.now + (if req.remember_me then 90 * 24 * 60 * 60 else 24 * 60 * 60) * 1000,
      verified := true }] := by
  rw [Login.run_verify_accept o st req u p hm he hp hg hr hu hmatch hver hhon hstrong hvc hpend hcode hfresh]
  cases hrm : req.remember_me <;> exact ⟨rfl, rfl, rfl⟩

/-- C7 witness: the concrete successful login sets Max-Age 86400 without
remember_me and 7776000 with remember_me, with matching session expiries
(86400000 ms and 7776000000 ms past the clock value 5000). -/
theorem login_success_cookie_witness :
    ((Login.handler oW stPend reqSecond).1.cookie =
      some "__Host-session_secure=TOK; Path=/; HttpOnly; Secure; Max-Age=86400; SameSite=Strict" ∧
     (Login.handler oW stPend reqSecond).2.1.sessions =
      [{ user_email := "a@x.com", session_token := "TOK", expires_at := 86405000, verified := true }]) ∧
    ((Login.handler oW stPend reqSecondRemember).1.cookie =
      some "__Host-session_secure=TOK; Path=/; HttpOnly; Secure; Max-Age=7776000; SameSite=Strict" ∧
     (Login.handler oW stPend reqSecondRemember).2.1.sessions =
      [{ user_email := "a@x.com", session_token := "TOK", expires_at := 7776005000, verified := true }]) := by
  have h1 := login_success_cookie oW stPend reqSecond uW pW
    (by decide) (by decide) (by decide) (by decide) (by decide) (by decide)
    (by decide) (by decide) (by decide) (by decide) (by decide) (by decide) (by decide) (by decide)
  have h2 := login_success_cookie oW stPend reqSecondRemember uW pW
    (by decide) (by decide) (by decide) (by decide) (by decide) (by decide)
    (by decide) (by decide) (by decide) (by decide) (by decide) (by decide) (by decide) (by decide)
  refine ⟨⟨?_, ?_⟩, ⟨?_, ?_⟩⟩
  · rw [h1.2.1]; decide
  · rw [h1.2.2]; decide
  · rw [h2.2.1]; decide
  · rw [h2.2.2]; decide

/-- C4 counterexample: the claim says codes are drawn from 000000-999999,
but the generator computes 100000 plus a value below 900000, so the
value 99999 (the 6-character string "099999") can never be produced: the
actual range is 100000-999999. -/
theorem verification_code_range_counterexample :
    ¬ ∃ r : Fin 900000, Login.verificationCodeNat r = 99999 := by
  rintro ⟨r, h⟩
  simp [Login.verificationCodeNat] at h
  omega

/-- C4 (amended): every generated verification code is the decimal string
of a value uniformly drawn from 100000-999999: each draw lands in that
range (hence exactly six decimal digits, and the string length is at most
six), the map from the underlying uniform draw is injective, and every
value of the range is reached, so a uniform draw induces a uniform code. -/
theorem verification_code_range :
    (∀ r : Fin 900000,
      100000 ≤ Login.verificationCodeNat r ∧ Login.verificationCodeNat r ≤ 999999 ∧
      Login.generateVerificationCode r = Nat.repr (Login.verificationCodeNat r) ∧
      (Login.generateVerificationCode r).length ≤ 6) ∧
    Function.Injective Login.verificationCodeNat ∧
    (∀ n : Nat, 100000 ≤ n → n ≤ 999999 → ∃ r : Fin 900000, Login.verificationCodeNat r = n) := by
  refine ⟨?_, ?_, ?_⟩
  · intro r
    have hlt : r.val < 900000 := r.isLt
    refine ⟨by simp [Login.verificationCodeNat], by simp [Login.verificationCodeNat]; omega, rfl, ?_⟩
    have h6 : Login.verificationCodeNat r < 10 ^ 6 := by simp [Login.verificationCodeNat]; omega
    exact Nat.repr_length _ 6 (by norm_num) h6
  · intro a b hab
    have h : a.val = b.val := by
      simpa [Login.verificationCodeNat] using hab
    exact Fin.ext h
  · intro n h1 h2
    exact ⟨⟨n - 100000, by omega⟩, by simp [Login.verificationCodeNat]; omega⟩

/-- C4 witness: concrete instances of the range bounds and of
reachability of the value 123456. -/
theorem verification_code_range_witness :
    100000 ≤ Login.verificationCodeNat (0 : Fin 900000) ∧
    (Login.generateVerificationCode (0 : Fin 900000)).length ≤ 6 ∧
    ∃ r : Fin 900000, Login.verificationCodeNat r = 123456 :=
  ⟨(verification_code_range.1 0).1, (verification_code_range.1 0).2.2.2,
   verification_code_range.2.2 123456 (by norm_num) (by norm_num)⟩

/-- C5 (amended): in the like-video handler (src/unnamed/part_000), the
endpoint cited for lazy cleanup, an unknown session token and an expired
one are both rejected with status 401 and success false (with differing
error messages: "Session expired or invalid" versus "Session expired"),
and the expired Session Record is eagerly deleted from the store during
that validation attempt, so a subsequent lookup of the token finds
nothing. Not every authenticated endpoint deletes, and the two bodies are
not equal, so the original claim holds only in this amended form (see the
counterexample). -/
theorem session_expired_lazy_cleanup (st : Store) (now : Nat) (tok : Option String)
    (ht : truthy tok = true) :
    (SessionCheck.findSession st.sessions (jsOrS tok "") = none →
      SessionCheck.likeVideoValidate st now tok =
        (some { status := 401, body := { success := some false, error := some "Session expired or invalid" } }, st)) ∧
    (∀ s, SessionCheck.findSession st.sessions (jsOrS tok "") = some s → s.expires_at < now →
      (SessionCheck.likeVideoValidate st now tok).1 =
        some { status := 401, body := { success := some false, error := some "Session expired" } } ∧
      (SessionCheck.likeVideoValidate st now tok).2.sessions =
        st.sessions.filter (fun q => !(q.session_token == jsOrS tok "")) ∧
      SessionCheck.findSession (SessionCheck.likeVideoValidate st now tok).2.sessions (jsOrS tok "") = none) := by
  constructor
  · intro hn
    simp [SessionCheck.likeVideoValidate, ht, hn]
  · intro s hs hex
    simp only [SessionCheck.likeVideoValidate, ht, hs, Bool.not_true, Bool.false_eq_true, if_false]
    simp [hex, findSession_filter]

/-- C5 witness: validating the expired concrete session "T" at time 2000
yields the 401 rejection and removes the record. -/
theorem session_expired_lazy_cleanup_witness :
    truthy (some "T") = true ∧ sessT.expires_at < 2000 ∧
    (SessionCheck.likeVideoValidate stSess 2000 (some "T")).1 =
      some { status := 401, body := { success := some false, error := some "Session expired" } } ∧
    SessionCheck.findSession (SessionCheck.likeVideoValidate stSess 2000 (some "T")).2.sessions "T" = none := by
  have h := (session_expired_lazy_cleanup stSess 2000 (some "T") (by decide)).2 sessT (by decide) (by decide)
  exact ⟨by decide, by decide, h.1, h.2.2⟩

/-- C10: the logout handler is idempotent and never fails for lack of a
session: every POST answers 200 with success true; running logout twice
in a row gives the same response and store the second time; a POST with
no session cookie leaves the store unchanged with an Already-logged-out
message; and a POST whose token matches no Session Record also leaves the
store unchanged. -/
theorem logout_idempotent (prod : Bool) (st : Store) (req : Logout.Req)
    (hm : req.method = "POST") :
    (Logout.handler prod st req).1.status = 200 ∧
    (Logout.handler prod st req).1.body.success = some true ∧
    Logout.handler prod (Logout.handler prod st req).2 req =
      ((Logout.handler prod st req).1, (Logout.handler prod st req).2) ∧
    (truthy req.cookieToken = false →
      Logout.handler prod st req =
        ({ status := 200, body := { success := some true, message := some "Already logged out" } }, st)) ∧
    ((∀ s ∈ st.sessions, (s.session_token == jsOrS req.cookieToken "") = false) →
      (Logout.handler prod st req).2 = st) := by
  cases hct : truthy req.cookieToken with
  | false =>
      simp [Logout.handler, hm, hct]
  | true =>
      refine ⟨?_, ?_, ?_, ?_, ?_⟩
      · simp [Logout.handler, hm, hct]
      · simp [Logout.handler, hm, hct]
      · simp [Logout.handler, hm, hct, List.filter_filter]
      · intro h; exact Bool.noConfusion h
      · intro hall
        simp only [Logout.handler, hm, hct]
        simp only [Bool.not_true, Bool.false_eq_true, if_false]
        have : st.sessions.filter (fun s => !(s.session_token == jsOrS req.cookieToken "")) = st.sessions :=
          List.filter_eq_self.mpr (fun s hs => by simp [hall s hs])
        simp [this]

/-- C5 counterexample: the secondary me.js handler is an authenticated
endpoint validating session tokens, yet on the expired session "T" it
returns the 401 rejection while leaving the store unchanged: the expired
Session Record is not deleted during that validation attempt, refuting the
claim for every authenticated endpoint. -/
theorem session_expired_no_delete_counterexample :
    sessT.expires_at < 2000 ∧
    (SessionCheck.meV2Validate stSess 2000 (some "T")).1 =
      some { status := 401, body := { error := some "Session expired or invalid" } } ∧
    (SessionCheck.meV2Validate stSess 2000 (some "T")).2 = stSess ∧
    stSess.sessions = [sessT] := by
  refine ⟨by decide, by decide, by decide, rfl⟩

/-- C10 witness: logging out the concrete session "T" twice succeeds both
times, with the second run returning the same response and store. -/
theorem logout_idempotent_witness :
    (Logout.handler true stSess reqLogout).1.status = 200 ∧
    (Logout.handler true stSess reqLogout).1.body.success = some true ∧
    Logout.handler true (Logout.handler true stSess reqLogout).2 reqLogout =
      ((Logout.handler true stSess reqLogout).1, (Logout.handler true stSess reqLogout).2) := by
  have h := logout_idempotent true stSess reqLogout (by decide)
  exact ⟨h.1, h.2.1, h.2.2.1⟩
